import Mathlib

/-!
Verification of the documentation build-and-publish pipeline and the
repository console utilities (docs_pusher.py, github_manager.py,
github_monitor.py) via a shallow embedding in Lean 4.

The external tools (pdflatex, git) are modelled as environment records
describing the outcome of each invocation; the Python control flow is
translated function by function.
-/

namespace BorderGuard

/-- Outcome of a single external pdflatex invocation: a process exit
code, a timeout (subprocess.TimeoutExpired), the executable missing
(FileNotFoundError), or any other exception. -/
inductive RunOutcome
  | exit (code : Nat)
  | timeout
  | toolMissing
  | err
deriving DecidableEq, Repr

/-- A file path as pathlib's with_suffix views it: the stem (directory
plus base name) and the extension.  Distinct files discovered by
rglob have distinct stems. -/
structure DocPath where
  stem : String
  ext : String
deriving DecidableEq, Repr

/-- Embeds Path.with_suffix: replace the extension. -/
def withSuffix (p : DocPath) (e : String) : DocPath := ⟨p.stem, e⟩

/-- The .pdf sibling of a source file (tex_file.with_suffix of .pdf). -/
def pdfOf (p : DocPath) : DocPath := withSuffix p ".pdf"

/-- A filesystem snapshot: the files that exist, with their byte sizes. -/
abbrev FS : Type := List (DocPath × Nat)

/-- Embeds Path.exists on a filesystem snapshot. -/
def fsExists (fs : FS) (q : DocPath) : Bool :=
  List.any fs (fun e => e.1 == q)

/-- Embeds Path.stat on a filesystem snapshot: st_size, 0 if absent. -/
def fsSize (fs : FS) (q : DocPath) : Nat :=
  (Option.map Prod.snd (List.find? (fun e => e.1 == q) fs)).getD 0

/-- The aux_extensions list of build_latex. -/
def aux_extensions : List String := [".aux", ".log", ".out", ".toc"]

/-- Embeds the auxiliary-byproduct deletion loop of build_latex: each
path tex_file.with_suffix(ext) for ext in aux_extensions is unlinked
if it exists (errors ignored). -/
def deleteAux (p : DocPath) (fs : FS) : FS :=
  List.filter (fun e => !(List.map (withSuffix p) aux_extensions).contains e.1) fs

/-- The external world one build_latex call runs in: the outcome of
each of the two pdflatex passes, and the filesystem snapshot left
behind after each pass (the typesetting tool may create or overwrite
files arbitrarily). -/
structure BuildWorld where
  pass1 : RunOutcome
  fs1 : FS
  pass2 : RunOutcome
  fs2 : FS
deriving DecidableEq, Repr

/-- A pass is accepted exactly when the invocation returned exit code 0:
result.returncode != 0 returns False, and the timeout / tool-missing /
other-exception handlers also return False. -/
def passOk : RunOutcome → Bool
  | .exit 0 => true
  | _ => false

/-- Embeds DocumentationPusher.build_latex for one source file: run
pdflatex twice, failing on a non-zero exit (or exception) of either
pass; on both passes succeeding, delete auxiliary byproducts, then
append the .pdf path to built_files and return True exactly when that
.pdf exists.  Returns (success flag, updated built_files, the
filesystem after the attempt). -/
def build_latex (p : DocPath) (w : BuildWorld) (built : List DocPath) :
    Bool × List DocPath × FS :=
  if passOk w.pass1 = false then (false, built, w.fs1)
  else if passOk w.pass2 = false then (false, built, w.fs2)
  else
    let fs := deleteAux p w.fs2
    if fsExists fs (pdfOf p) then (true, built ++ [pdfOf p], fs)
    else (false, built, fs)

/-- The success condition of build_latex, independent of the built_files
accumulator. -/
def buildOk (p : DocPath) (w : BuildWorld) : Bool :=
  passOk w.pass1 && passOk w.pass2 && fsExists (deleteAux p w.fs2) (pdfOf p)

/-- The per-file loop of build_all_docs: fold build_latex over the
discovered files, threading the success count and built_files. -/
def buildFold (files : List (DocPath × BuildWorld)) (st : Nat × List DocPath) :
    Nat × List DocPath :=
  List.foldl
    (fun st f =>
      let r := build_latex f.1 f.2 st.2
      (if r.1 then st.1 + 1 else st.1, r.2.1))
    st files

/-- Embeds DocumentationPusher.build_all_docs: with no source files it
returns False; otherwise it builds each file and returns True exactly
when every file built (success_count == len(tex_files)), together with
the final built_files list. -/
def build_all_docs (files : List (DocPath × BuildWorld)) : Bool × List DocPath :=
  if files.isEmpty then (false, [])
  else
    let st := buildFold files (0, [])
    (st.1 == files.length, st.2)

/-- The discovery environment of find_tex_files: whether the docs
directory exists, and the source files (with their build worlds) that
rglob would list when it does. -/
structure DocsEnv where
  docsDirExists : Bool
  texFiles : List (DocPath × BuildWorld)

/-- Embeds DocumentationPusher.find_tex_files: empty when the docs
directory is missing, else the rglob listing. -/
def find_tex_files (e : DocsEnv) : List (DocPath × BuildWorld) :=
  if e.docsDirExists then e.texFiles else []

/-- The external world the publish stage runs in: whether each staging
call (repo.git.add on the two pdf glob patterns) raises, whether the
repository is dirty after staging (repo.is_dirty, which compares index
and working tree against HEAD and ignores untracked files), and
whether the commit and push calls raise. -/
structure PushWorld where
  add1Ok : Bool
  add2Ok : Bool
  dirty : Bool
  commitOk : Bool
  pushOk : Bool
deriving DecidableEq, Repr

/-- The commit message of push_to_github for a given built_files count. -/
def pushMessage (n : Nat) : String :=
  "Auto-build: Generated " ++ toString n ++ " PDF(s)"

/-- Result of one push_to_github call: the returned boolean, and the
message of the commit it created (none when no commit was made). -/
structure PushResult where
  success : Bool
  committed : Option String
deriving DecidableEq, Repr

/-- Embeds DocumentationPusher.push_to_github: stage the two pdf glob
patterns (an exception from either add returns False); if the
repository is not dirty, return True without committing; otherwise
commit with the built-count message (an exception returns False) and
push (an exception returns False, the commit already made).  n is
len(self.built_files). -/
def push_to_github (n : Nat) (w : PushWorld) : PushResult :=
  if w.add1Ok = false then ⟨false, none⟩
  else if w.add2Ok = false then ⟨false, none⟩
  else if w.dirty = false then ⟨true, none⟩
  else if w.commitOk = false then ⟨false, none⟩
  else if w.pushOk = false then ⟨false, some (pushMessage n)⟩
  else ⟨true, some (pushMessage n)⟩

/-- Outcome of one pipeline run: the boolean run returns, whether
push_to_github was invoked at all, and the message of the commit the
run created (none when no commit was made). -/
structure RunResult where
  success : Bool
  pushAttempted : Bool
  committed : Option String
deriving DecidableEq, Repr

/-- Embeds DocumentationPusher.run: build all docs, returning False at
once when the build stage reports failure; then, when pushing to the
remote is requested and built_files is non-empty, run push_to_github
and fail when it fails. -/
def run (e : DocsEnv) (pw : PushWorld) (push_to_remote : Bool) : RunResult :=
  let r := build_all_docs (find_tex_files e)
  if r.1 = false then ⟨false, false, none⟩
  else if push_to_remote && !r.2.isEmpty then
    let pr := push_to_github r.2.length pw
    ⟨pr.success, true, pr.committed⟩
  else ⟨true, false, none⟩

/-- Startup outcome of DocumentationPusher.main: either opening the
repository in the constructor raised (sys.exit(1) before any stage
runs), or setup succeeded and the pipeline runs in the given worlds. -/
inductive SetupOutcome
  | setupFailed
  | ok (e : DocsEnv) (pw : PushWorld)

/-- Embeds the process exit code of main: 1 when the constructor
sys.exits on a repository-open failure, else sys.exit(0 if success
else 1) around run(push_to_remote=True). -/
def mainExitCode : SetupOutcome → Nat
  | .setupFailed => 1
  | .ok e pw => if (run e pw true).success then 0 else 1

/-! Console model (github_manager.py).  Console output is modelled as a
list of printed lines; external git calls as the list of operations
handed to the git library, in order. -/

/-- One printed console line of the GitHubManager operations. -/
inductive Line
  | emptyMsgErr
  | emptyNameErr
  | stepAdd
  | addDone
  | stepCommit
  | commitDone
  | stepPush
  | pushDone
  | workflowDone
  | committedOk
  | branchCreated (name : String)
  | tagCreated (name : String)
  | tagPushed
  | errLine (msg : String)
deriving DecidableEq, Repr

/-- The literal console text of each modelled line. -/
def lineText : Line → String
  | .emptyMsgErr => "ERROR: Message cannot be empty"
  | .emptyNameErr => "ERROR: Name cannot be empty"
  | .stepAdd => "1. Adding files..."
  | .addDone => "   ✓ Added"
  | .stepCommit => "2. Committing..."
  | .commitDone => "   ✓ Committed"
  | .stepPush => "3. Pushing..."
  | .pushDone => "   ✓ Pushed"
  | .workflowDone => "✓ Workflow complete!"
  | .committedOk => "✓ Committed"
  | .branchCreated name => "✓ Branch created: " ++ name
  | .tagCreated name => "✓ Tag created: " ++ name
  | .tagPushed => "✓ Tag pushed"
  | .errLine msg => "ERROR: " ++ msg

/-- Embeds Python str.strip() with no arguments: remove leading and
trailing whitespace. -/
def pyStrip (s : String) : String :=
  String.mk (((s.data.dropWhile Char.isWhitespace).reverse.dropWhile
    Char.isWhitespace).reverse)

/-- Embeds Python str.lower(). -/
def pyLower (s : String) : String :=
  String.mk (s.data.map Char.toLower)

/-- The external git world of the console operations: whether each git
library call raises, and the message its exception would carry. -/
structure GitWorld where
  addOk : Bool
  addErr : String
  commitOk : Bool
  commitErr : String
  pushOk : Bool
  pushErr : String
  branchOk : Bool
  branchErr : String
  tagOk : Bool
  tagErr : String
deriving DecidableEq, Repr

/-- Result of one console operation: the git library calls it made, in
order, and the lines it printed. -/
structure OpResult where
  gitCalls : List String
  output : List Line
deriving DecidableEq, Repr

/-- Embeds GitHubManager.commit_changes: strip the input, reject empty
locally, else call repo.index.commit (an exception prints ERROR). -/
def commit_changes (input : String) (w : GitWorld) : OpResult :=
  let msg := pyStrip input
  if msg = "" then ⟨[], [.emptyMsgErr]⟩
  else if w.commitOk then ⟨["commit"], [.committedOk]⟩
  else ⟨["commit"], [.errLine w.commitErr]⟩

/-- Embeds GitHubManager.create_branch: strip the input, reject empty
locally, else call repo.create_head. -/
def create_branch (input : String) (w : GitWorld) : OpResult :=
  let name := pyStrip input
  if name = "" then ⟨[], [.emptyNameErr]⟩
  else if w.branchOk then ⟨["create_head"], [.branchCreated name]⟩
  else ⟨["create_head"], [.errLine w.branchErr]⟩

/-- Embeds GitHubManager.create_tag: strip the input, reject empty
locally, else call repo.create_tag; on success ask whether to push the
tag and push it when the stripped, lowercased answer is y. -/
def create_tag (input : String) (pushAns : String) (w : GitWorld) : OpResult :=
  let name := pyStrip input
  if name = "" then ⟨[], [.emptyNameErr]⟩
  else if w.tagOk = false then ⟨["create_tag"], [.errLine w.tagErr]⟩
  else if pyLower (pyStrip pushAns) = "y" then
    if w.pushOk then ⟨["create_tag", "push"], [.tagCreated name, .tagPushed]⟩
    else ⟨["create_tag", "push"], [.tagCreated name, .errLine w.pushErr]⟩
  else ⟨["create_tag"], [.tagCreated name]⟩

/-- Embeds GitHubManager.complete_workflow: strip the message, reject
empty locally; else add all, commit, push, in one try block, so the
first exception skips every later step and prints ERROR. -/
def complete_workflow (input : String) (w : GitWorld) : OpResult :=
  let msg := pyStrip input
  if msg = "" then ⟨[], [.emptyMsgErr]⟩
  else if w.addOk = false then
    ⟨["add"], [.stepAdd, .errLine w.addErr]⟩
  else if w.commitOk = false then
    ⟨["add", "commit"], [.stepAdd, .addDone, .stepCommit, .errLine w.commitErr]⟩
  else if w.pushOk = false then
    ⟨["add", "commit", "push"],
      [.stepAdd, .addDone, .stepCommit, .commitDone, .stepPush, .errLine w.pushErr]⟩
  else
    ⟨["add", "commit", "push"],
      [.stepAdd, .addDone, .stepCommit, .commitDone, .stepPush, .pushDone, .workflowDone]⟩

/-! Status reporter model (github_monitor.py). -/

/-- The repository state GitHubMonitor.get_file_changes reads: the
dirty flag (repo.is_dirty, index and working tree versus HEAD,
untracked files not counted), the untracked file list, and the a_paths
of index.diff against HEAD. -/
structure MonitorState where
  dirty : Bool
  untracked : List String
  modifiedVsHead : List String
deriving DecidableEq, Repr

/-- Embeds GitHubMonitor.get_file_changes: nothing unless the
repository is dirty; then the first 10 untracked files and the first
10 modified-vs-HEAD entries, formatted. -/
def get_file_changes (s : MonitorState) : List String :=
  if s.dirty then
    List.map (fun item => "  ? " ++ item) (s.untracked.take 10)
      ++ List.map (fun d => "  M " ++ d) (s.modifiedVsHead.take 10)
  else []

/-! Helper lemmas about the build stage. -/

theorem passOk_iff (o : RunOutcome) : passOk o = true ↔ o = RunOutcome.exit 0 := by
  cases o with
  | exit c => cases c <;> simp [passOk]
  | timeout => simp [passOk]
  | toolMissing => simp [passOk]
  | err => simp [passOk]

theorem mem_aux_ne_pdf (p : DocPath) (q : DocPath)
    (hq : q ∈ List.map (withSuffix p) aux_extensions) : q ≠ pdfOf p := by
  simp only [aux_extensions, withSuffix, List.map_cons, List.map_nil,
    List.mem_cons, List.not_mem_nil, or_false] at hq
  rcases hq with h | h | h | h <;> subst h <;>
    simp [pdfOf, withSuffix, DocPath.mk.injEq]

theorem fsExists_deleteAux_pdf (p : DocPath) (fs : FS) :
    fsExists (deleteAux p fs) (pdfOf p) = fsExists fs (pdfOf p) := by
  induction fs with
  | nil => rfl
  | cons e rest ih =>
    unfold deleteAux fsExists at ih ⊢
    rw [List.filter_cons]
    by_cases hk : (!(List.map (withSuffix p) aux_extensions).contains e.1) = true
    · rw [if_pos hk, List.any_cons, List.any_cons, ih]
    · rw [if_neg hk, ih, List.any_cons]
      have hmem : e.1 ∈ List.map (withSuffix p) aux_extensions := by
        simp only [Bool.not_eq_true, Bool.not_eq_false] at hk
        simpa using hk
      have hne : (e.1 == pdfOf p) = false := by
        simpa using mem_aux_ne_pdf p e.1 hmem
      rw [hne, Bool.false_or]

theorem build_latex_fst (p : DocPath) (w : BuildWorld) (built : List DocPath) :
    (build_latex p w built).1 = buildOk p w := by
  unfold build_latex buildOk
  cases h1 : passOk w.pass1 <;> cases h2 : passOk w.pass2 <;>
    simp [h1, h2] <;>
    cases hf : fsExists (deleteAux p w.fs2) (pdfOf p) <;> simp [hf]

theorem build_latex_built (p : DocPath) (w : BuildWorld) (built : List DocPath) :
    (build_latex p w built).2.1 = if buildOk p w then built ++ [pdfOf p] else built := by
  unfold build_latex buildOk
  cases h1 : passOk w.pass1 <;> cases h2 : passOk w.pass2 <;>
    simp [h1, h2] <;>
    cases hf : fsExists (deleteAux p w.fs2) (pdfOf p) <;> simp [hf]

/-- Concrete source file used in counterexamples. -/
def cexTex : DocPath := ⟨"docs/report", ".tex"⟩

/-- Build world of a failed attempt over a stale, non-empty output left
by a previous run: the first pdflatex pass exits with code 1 while
docs/report.pdf (128000 bytes) is still on disk. -/
def cexStale : BuildWorld :=
  { pass1 := RunOutcome.exit 1
    fs1 := [(⟨"docs/report", ".pdf"⟩, 128000)]
    pass2 := RunOutcome.exit 0
    fs2 := [(⟨"docs/report", ".pdf"⟩, 128000)] }

/-- C1 counterexample: for a build attempt whose first pass exits with
code 1 while a stale non-empty docs/report.pdf is on disk, build_latex
returns false although the derived output file exists and is non-empty
after the attempt, so the claimed "success iff output exists and is
non-empty" equivalence fails. -/
theorem C1_cex :
    ¬ (((build_latex cexTex cexStale []).1 = true) ↔
        (fsExists (build_latex cexTex cexStale []).2.2 (pdfOf cexTex) = true ∧
         0 < fsSize (build_latex cexTex cexStale []).2.2 (pdfOf cexTex))) := by
  decide

/-- C1 (amended): the success flag returned by build_latex is true iff
both typesetting passes exit with code 0 and the derived .pdf exists in
the filesystem after the second pass; the output's being non-empty is
not checked, and when a pass fails the flag is false even if a stale
output file exists. -/
theorem C1_build_success_iff (p : DocPath) (w : BuildWorld) (built : List DocPath) :
    (build_latex p w built).1 = true ↔
      (w.pass1 = RunOutcome.exit 0 ∧ w.pass2 = RunOutcome.exit 0 ∧
       fsExists w.fs2 (pdfOf p) = true) := by
  rw [build_latex_fst]
  unfold buildOk
  rw [← fsExists_deleteAux_pdf p w.fs2]
  cases h1 : passOk w.pass1 <;> cases h2 : passOk w.pass2 <;>
    simp [← passOk_iff, h1, h2]

/-- A publish-stage world in which everything is primed to succeed and
the repository is dirty after staging. -/
def pwAllOk : PushWorld :=
  { add1Ok := true, add2Ok := true, dirty := true, commitOk := true, pushOk := true }

/-- A discovery environment whose docs directory is missing although
source files would be there. -/
def envNoDocsDir : DocsEnv := ⟨false, [(cexTex, cexStale)]⟩

/-- C3: when zero document source files are found (in particular when
the docs directory is missing), build_all_docs returns false and the
pipeline returns failure without ever invoking the publish stage. -/
theorem C3_no_sources_no_publish (e : DocsEnv) (pw : PushWorld)
    (h : find_tex_files e = []) :
    run e pw true = ⟨false, false, none⟩ := by
  unfold run
  rw [h]
  simp [build_all_docs]

/-- C3 witness: a run over a missing docs directory, with the publish
world primed to succeed, still reports failure and never publishes. -/
theorem C3_witness :
    find_tex_files envNoDocsDir = [] ∧
    run envNoDocsDir pwAllOk true = ⟨false, false, none⟩ :=
  ⟨rfl, C3_no_sources_no_publish envNoDocsDir pwAllOk rfl⟩

/-- A publish-stage world where staging succeeds and leaves the
repository clean. -/
def pwClean : PushWorld :=
  { add1Ok := true, add2Ok := true, dirty := false, commitOk := true, pushOk := true }

/-- C5: when both staging calls succeed and the repository is clean
afterwards, push_to_github creates no commit (so the history is
unchanged) and still returns true. -/
theorem C5_clean_no_commit (n : Nat) (w : PushWorld)
    (h1 : w.add1Ok = true) (h2 : w.add2Ok = true) (h3 : w.dirty = false) :
    push_to_github n w = ⟨true, none⟩ := by
  unfold push_to_github
  rw [h1, h2, h3]
  simp

/-- C5 witness: concrete clean publish world. -/
theorem C5_witness :
    pwClean.add1Ok = true ∧ pwClean.add2Ok = true ∧ pwClean.dirty = false ∧
    push_to_github 3 pwClean = ⟨true, none⟩ :=
  ⟨rfl, rfl, rfl, C5_clean_no_commit 3 pwClean rfl rfl rfl⟩

/-- A dirty repository with 10 untracked files and one file modified
versus HEAD. -/
def monManyChanges : MonitorState :=
  { dirty := true
    untracked := ["u0", "u1", "u2", "u3", "u4", "u5", "u6", "u7", "u8", "u9"]
    modifiedVsHead := ["m0"] }

/-- C8 counterexample: with 10 untracked files and one modified file in
a dirty repository, get_file_changes returns 11 entries, so the claimed
bound of at most 10 entries in total is false. -/
theorem C8_cex : ¬ ((get_file_changes monManyChanges).length ≤ 10) := by
  decide

/-- C8 (amended): get_file_changes returns at most 20 entries in total,
namely at most 10 untracked files plus at most 10 files modified versus
HEAD (the cap of 10 is applied to each listing separately, not to the
combined listing). -/
theorem C8_changes_le_twenty (s : MonitorState) :
    (get_file_changes s).length ≤ 20 := by
  unfold get_file_changes
  by_cases h : s.dirty
  · rw [if_pos h]
    simp [List.length_take]
    omega
  · rw [if_neg h]
    simp

/-- C9: the process exit code of main is 1 when setup fails, and for a
completed setup it is 0 exactly when the build stage reports full
success and, in case the publish stage ran (built_files non-empty),
the publish stage succeeded as well. -/
theorem C9_exit_codes :
    mainExitCode SetupOutcome.setupFailed = 1 ∧
    ∀ (e : DocsEnv) (pw : PushWorld),
      (mainExitCode (SetupOutcome.ok e pw) = 0 ↔
        ((build_all_docs (find_tex_files e)).1 = true ∧
         ((build_all_docs (find_tex_files e)).2 = [] ∨
          (push_to_github (build_all_docs (find_tex_files e)).2.length pw).success
            = true))) := by
  constructor
  · rfl
  · intro e pw
    unfold mainExitCode run
    rcases hb : build_all_docs (find_tex_files e) with ⟨ok, built⟩
    cases ok
    · simp [hb]
    · cases built with
      | nil => simp [hb]
      | cons b bs =>
        cases hps : (push_to_github (b :: bs).length pw).success
        · simp [hb]
          simpa using hps
        · simp [hb]
          simpa using hps

/-- A clean repository (index and working tree match HEAD) that has an
untracked file. -/
def monCleanUntracked : MonitorState :=
  { dirty := false, untracked := ["new.txt"], modifiedVsHead := [] }

/-- C10: when the repository is not dirty (index and working tree match
the last commit) get_file_changes returns the empty list even though
untracked files exist: the whole listing is guarded by the dirty flag,
which does not count untracked files. -/
theorem C10_clean_hides_untracked (s : MonitorState)
    (h : s.dirty = false) (hu : s.untracked ≠ []) :
    get_file_changes s = [] := by
  unfold get_file_changes
  rw [h]
  simp

/-- C10 witness: a clean repository with one untracked file yields an
empty changed-file listing. -/
theorem C10_witness :
    monCleanUntracked.dirty = false ∧ monCleanUntracked.untracked ≠ [] ∧
    get_file_changes monCleanUntracked = [] :=
  ⟨rfl, by decide, C10_clean_hides_untracked monCleanUntracked rfl (by decide)⟩

/-! Lemmas about the per-file build loop. -/

theorem buildFold_cons (f : DocPath × BuildWorld) (rest : List (DocPath × BuildWorld))
    (st : Nat × List DocPath) :
    buildFold (f :: rest) st =
      buildFold rest
        (if buildOk f.1 f.2 then st.1 + 1 else st.1,
         if buildOk f.1 f.2 then st.2 ++ [pdfOf f.1] else st.2) := by
  unfold buildFold
  simp only [List.foldl_cons]
  rw [build_latex_fst, build_latex_built]

theorem buildFold_count_le (files : List (DocPath × BuildWorld)) :
    ∀ (c : Nat) (init : List DocPath),
      (buildFold files (c, init)).1 ≤ c + files.length := by
  induction files with
  | nil =>
    intro c init
    simp [buildFold]
  | cons f rest ih =>
    intro c init
    rw [buildFold_cons]
    by_cases h : buildOk f.1 f.2 = true
    · rw [if_pos h, if_pos h]
      have := ih (c + 1) (init ++ [pdfOf f.1])
      simp only [List.length_cons]
      omega
    · rw [if_neg h, if_neg h]
      have := ih c init
      simp only [List.length_cons]
      omega

theorem buildFold_count_lt_of_fail (files : List (DocPath × BuildWorld))
    (p : DocPath) (w : BuildWorld)
    (hm : (p, w) ∈ files) (hf : buildOk p w = false) :
    ∀ (c : Nat) (init : List DocPath),
      (buildFold files (c, init)).1 < c + files.length := by
  induction files with
  | nil => cases hm
  | cons f rest ih =>
    intro c init
    rw [buildFold_cons]
    rcases List.mem_cons.mp hm with heq | hmem
    · have hko : buildOk f.1 f.2 = false := by
        rw [← heq]
        exact hf
      rw [if_neg (by simp [hko]), if_neg (by simp [hko])]
      have := buildFold_count_le rest c init
      simp only [List.length_cons]
      omega
    · by_cases h : buildOk f.1 f.2 = true
      · rw [if_pos h, if_pos h]
        have := ih hmem (c + 1) (init ++ [pdfOf f.1])
        simp only [List.length_cons]
        omega
      · rw [if_neg h, if_neg h]
        have := ih hmem c init
        simp only [List.length_cons]
        omega

theorem build_all_docs_false_of_fail (files : List (DocPath × BuildWorld))
    (p : DocPath) (w : BuildWorld)
    (hm : (p, w) ∈ files) (hf : buildOk p w = false) :
    (build_all_docs files).1 = false := by
  unfold build_all_docs
  have hne : files.isEmpty = false := by
    cases files with
    | nil => cases hm
    | cons f rest => rfl
  rw [if_neg (by simp [hne])]
  have hlt := buildFold_count_lt_of_fail files p w hm hf 0 []
  simp only [Nat.zero_add] at hlt
  simp only [beq_eq_false_iff_ne]
  omega

theorem mem_buildFold (files : List (DocPath × BuildWorld)) :
    ∀ (c : Nat) (init : List DocPath) (q : DocPath),
      q ∈ (buildFold files (c, init)).2 →
      q ∈ init ∨ ∃ f ∈ files, buildOk f.1 f.2 = true ∧ pdfOf f.1 = q := by
  induction files with
  | nil =>
    intro c init q h
    simp [buildFold] at h
    exact Or.inl h
  | cons f rest ih =>
    intro c init q h
    rw [buildFold_cons] at h
    by_cases hb : buildOk f.1 f.2 = true
    · rw [if_pos hb, if_pos hb] at h
      rcases ih _ _ _ h with hin | ⟨g, hg, hgo, hgq⟩
      · rcases List.mem_append.mp hin with h1 | h2
        · exact Or.inl h1
        · refine Or.inr ⟨f, List.mem_cons_self f rest, hb, ?_⟩
          have h3 : q = pdfOf f.1 := by simpa using h2
          exact h3.symm
      · exact Or.inr ⟨g, List.mem_cons_of_mem f hg, hgo, hgq⟩
    · rw [if_neg hb, if_neg hb] at h
      rcases ih _ _ _ h with hin | ⟨g, hg, hgo, hgq⟩
      · exact Or.inl hin
      · exact Or.inr ⟨g, List.mem_cons_of_mem f hg, hgo, hgq⟩

/-- The source file that builds successfully in the mixed run. -/
def cexOkTex : DocPath := ⟨"docs/intro", ".tex"⟩

/-- Build world of a fully successful attempt: both passes exit 0 and
docs/intro.pdf (128000 bytes) is on disk afterwards. -/
def cexOkWorld : BuildWorld :=
  { pass1 := RunOutcome.exit 0
    fs1 := [(⟨"docs/intro", ".pdf"⟩, 128000)]
    pass2 := RunOutcome.exit 0
    fs2 := [(⟨"docs/intro", ".pdf"⟩, 128000)] }

/-- The two-file document set of the mixed run: one file builds, one
fails with exit code 1 over a stale output. -/
def cexFiles : List (DocPath × BuildWorld) := [(cexOkTex, cexOkWorld), (cexTex, cexStale)]

/-- The discovery environment of the mixed run. -/
def envMixed : DocsEnv := ⟨true, cexFiles⟩

/-- C2 counterexample: in a run with one successful and one failed
source file, and a publish world in which staging, commit and push
would all succeed on a dirty repository, the pipeline never attempts
the publish stage and creates no commit at all, so no commit whose
message contains "Generated 1 PDF(s)" exists, contrary to the claim. -/
theorem C2_cex :
    (run envMixed pwAllOk true).pushAttempted = false ∧
    (run envMixed pwAllOk true).committed = none := by
  decide

/-- C2 (amended): in every run in which some source file fails to build
(others may succeed), build_all_docs reports failure, the pipeline
returns failure, the publish stage is never attempted, and no commit is
created; the commit message "Auto-build: Generated N PDF(s)" arises
only in runs where every file builds. -/
theorem C2_partial_failure_no_publish (e : DocsEnv) (pw : PushWorld)
    (p : DocPath) (w : BuildWorld)
    (hm : (p, w) ∈ find_tex_files e) (hf : buildOk p w = false) :
    run e pw true = ⟨false, false, none⟩ := by
  have hfalse := build_all_docs_false_of_fail (find_tex_files e) p w hm hf
  simp only [run]
  rw [hfalse]
  simp

/-- C2 witness: the mixed two-file run, with a publish world primed to
commit, ends in a pipeline failure with no publish attempt and no
commit. -/
theorem C2_witness :
    ((cexTex, cexStale) ∈ find_tex_files envMixed) ∧
    buildOk cexTex cexStale = false ∧
    run envMixed pwAllOk true = ⟨false, false, none⟩ :=
  ⟨by decide, by decide,
    C2_partial_failure_no_publish envMixed pwAllOk cexTex cexStale
      (by decide) (by decide)⟩

/-- C4: a document one of whose typesetting passes exits with a
non-zero code is marked failed (build_latex returns false whatever the
built_files accumulator holds), and its .pdf path is absent from the
built list produced by build_all_docs, regardless of any stale output
file recorded in the surrounding filesystem snapshots; the source
files are assumed pairwise distinct (distinct stems), as rglob
guarantees. -/
theorem C4_failed_pass_not_in_built (files : List (DocPath × BuildWorld))
    (p : DocPath) (w : BuildWorld)
    (hm : (p, w) ∈ files)
    (hnd : (List.map (fun f => f.1.stem) files).Nodup)
    (hf : ∃ c, c ≠ 0 ∧ (w.pass1 = RunOutcome.exit c ∨ w.pass2 = RunOutcome.exit c)) :
    (∀ built, (build_latex p w built).1 = false) ∧
    pdfOf p ∉ (build_all_docs files).2 := by
  have hok : buildOk p w = false := by
    rcases hf with ⟨c, hc, hcase⟩
    have hpc : passOk (RunOutcome.exit c) = false := by
      cases c with
      | zero => exact absurd rfl hc
      | succ n => rfl
    unfold buildOk
    rcases hcase with h | h
    · rw [h, hpc]
      simp
    · rw [h, hpc]
      simp
  constructor
  · intro built
    rw [build_latex_fst]
    exact hok
  · intro hmem
    have hne : files.isEmpty = false := by
      cases files with
      | nil => cases hm
      | cons f rest => rfl
    unfold build_all_docs at hmem
    rw [if_neg (by simp [hne])] at hmem
    rcases mem_buildFold files 0 [] (pdfOf p) hmem with hin | ⟨g, hg, hgo, hgq⟩
    · cases hin
    · have hstem : g.1.stem = p.stem := by
        have := congrArg DocPath.stem hgq
        simpa [pdfOf, withSuffix] using this
      have hgp : g = (p, w) :=
        List.inj_on_of_nodup_map hnd hg hm hstem
      rw [hgp] at hgo
      exact absurd hgo (by simp [hok])

/-- C4 witness: in the mixed two-file set, the file whose first pass
exits with code 1 is marked failed and docs/report.pdf is not in the
built list, although a stale docs/report.pdf sits on disk. -/
theorem C4_witness :
    ((cexTex, cexStale) ∈ cexFiles) ∧
    ((List.map (fun f => f.1.stem) cexFiles).Nodup) ∧
    (1 ≠ 0 ∧ (cexStale.pass1 = RunOutcome.exit 1 ∨ cexStale.pass2 = RunOutcome.exit 1)) ∧
    ((build_latex cexTex cexStale []).1 = false ∧
     pdfOf cexTex ∉ (build_all_docs cexFiles).2) :=
  ⟨by decide, by decide, ⟨by decide, Or.inl (by decide)⟩,
    (C4_failed_pass_not_in_built cexFiles cexTex cexStale (by decide) (by decide)
        ⟨1, by decide, Or.inl (by decide)⟩).1 [],
    (C4_failed_pass_not_in_built cexFiles cexTex cexStale (by decide) (by decide)
        ⟨1, by decide, Or.inl (by decide)⟩).2⟩

/-- A console git world in which adding files raises. -/
def wAddFail : GitWorld :=
  { addOk := false, addErr := "add failed"
    commitOk := true, commitErr := ""
    pushOk := true, pushErr := ""
    branchOk := true, branchErr := ""
    tagOk := true, tagErr := "" }

/-- C6: for a non-empty stripped message, the composite workflow calls
add, commit and push as one unit and the first raising step aborts all
later steps: a failed add performs no commit and no push, a failed
commit performs no push; the printed trace identifies the failing step,
since its step header appears without its completion mark while later
step headers are absent, followed by the error line. -/
theorem C6_workflow_aborts (input : String) (w : GitWorld)
    (h : pyStrip input ≠ "") :
    (w.addOk = false →
      (complete_workflow input w).gitCalls = ["add"] ∧
      Line.stepAdd ∈ (complete_workflow input w).output ∧
      Line.addDone ∉ (complete_workflow input w).output ∧
      Line.stepCommit ∉ (complete_workflow input w).output ∧
      Line.stepPush ∉ (complete_workflow input w).output ∧
      Line.errLine w.addErr ∈ (complete_workflow input w).output) ∧
    (w.addOk = true → w.commitOk = false →
      (complete_workflow input w).gitCalls = ["add", "commit"] ∧
      Line.stepCommit ∈ (complete_workflow input w).output ∧
      Line.commitDone ∉ (complete_workflow input w).output ∧
      Line.stepPush ∉ (complete_workflow input w).output ∧
      Line.errLine w.commitErr ∈ (complete_workflow input w).output) ∧
    (w.addOk = true → w.commitOk = true → w.pushOk = false →
      (complete_workflow input w).gitCalls = ["add", "commit", "push"] ∧
      Line.stepPush ∈ (complete_workflow input w).output ∧
      Line.pushDone ∉ (complete_workflow input w).output ∧
      Line.errLine w.pushErr ∈ (complete_workflow input w).output) := by
  refine ⟨?_, ?_, ?_⟩
  · intro ha
    unfold complete_workflow
    simp [h, ha]
  · intro ha hc
    unfold complete_workflow
    simp [h, ha, hc]
  · intro ha hc hp
    unfold complete_workflow
    simp [h, ha, hc, hp]

/-- C6 witness: with a message that strips to "fix typo" and a world
whose add raises, the workflow stops after the add call. -/
theorem C6_witness :
    (pyStrip "fix typo" ≠ "") ∧
    ((complete_workflow "fix typo" wAddFail).gitCalls = ["add"] ∧
     Line.stepAdd ∈ (complete_workflow "fix typo" wAddFail).output ∧
     Line.addDone ∉ (complete_workflow "fix typo" wAddFail).output ∧
     Line.stepCommit ∉ (complete_workflow "fix typo" wAddFail).output ∧
     Line.stepPush ∉ (complete_workflow "fix typo" wAddFail).output ∧
     Line.errLine wAddFail.addErr ∈ (complete_workflow "fix typo" wAddFail).output) :=
  ⟨by decide, (C6_workflow_aborts "fix typo" wAddFail (by decide)).1 rfl⟩

/-- A console git world in which every git call would succeed, so any
operation the validation lets through would reach the git library. -/
def wAllOk : GitWorld :=
  { addOk := true, addErr := ""
    commitOk := true, commitErr := ""
    pushOk := true, pushErr := ""
    branchOk := true, branchErr := ""
    tagOk := true, tagErr := "" }

/-- C7: an input that strips to the empty string (so also a
whitespace-only input) is rejected locally by commit, create-branch,
create-tag and the composite workflow: each prints only the empty-input
error and makes no git call at all. -/
theorem C7_empty_input_rejected (s : String) (w : GitWorld) (a : String)
    (h : pyStrip s = "") :
    commit_changes s w = ⟨[], [Line.emptyMsgErr]⟩ ∧
    create_branch s w = ⟨[], [Line.emptyNameErr]⟩ ∧
    create_tag s a w = ⟨[], [Line.emptyNameErr]⟩ ∧
    complete_workflow s w = ⟨[], [Line.emptyMsgErr]⟩ := by
  unfold commit_changes create_branch create_tag complete_workflow
  simp [h]

/-- C7 witness: whitespace-only input, in a world where every git call
would succeed, is rejected by all four operations with no git call. -/
theorem C7_witness :
    (pyStrip "   " = "") ∧
    (commit_changes "   " wAllOk = ⟨[], [Line.emptyMsgErr]⟩ ∧
     create_branch "   " wAllOk = ⟨[], [Line.emptyNameErr]⟩ ∧
     create_tag "   " "y" wAllOk = ⟨[], [Line.emptyNameErr]⟩ ∧
     complete_workflow "   " wAllOk = ⟨[], [Line.emptyMsgErr]⟩) :=
  ⟨by decide, C7_empty_input_rejected "   " wAllOk "y" (by decide)⟩

end BorderGuard
